import Mathlib

/-!
Verification of the x402 network registry
(`src/python/x402/src/x402/networks.py`).

The source module defines two constants:
  * `SupportedNetworks`, a `Literal` enumeration of seven network
    identifier strings;
  * `EVM_NETWORK_TO_CHAIN_ID`, a dictionary from the EVM-family
    identifiers to their numeric chain IDs.

The operations `isSupportedNetwork` and `chainIdFor` described by the
specification are not present in the source tree; they are modelled
here from the specification's words on top of the source tables.
-/

namespace X402

/-- The `SupportedNetworks` `Literal` enumeration from `networks.py`,
embedded as the list of its member strings, in source order. -/
def SupportedNetworks : List String :=
  ["base", "base-sepolia", "avalanche-fuji", "avalanche", "mvx:1", "mvx:D", "mvx:T"]

/-- The `EVM_NETWORK_TO_CHAIN_ID` dictionary from `networks.py`,
embedded as an association list in source order.  Chain identifiers are
Python integers, embedded as `Int`. -/
def EVM_NETWORK_TO_CHAIN_ID : List (String × Int) :=
  [("base-sepolia", 84532),
   ("base", 8453),
   ("avalanche-fuji", 43113),
   ("avalanche", 43114)]

/-- Modelled from the spec: `isSupportedNetwork(value: string) -> bool`
is not present under `src/`; per the spec it "returns true iff `value`
is a member of the Network Identifier enumeration" (case-sensitive
exact match). -/
def isSupportedNetwork (value : String) : Bool :=
  SupportedNetworks.contains value

/-- Modelled from the spec: the error kind `ChainIdUnavailable`,
"raised when chain-ID resolution is attempted for a network identifier
outside the EVM subset". -/
inductive ChainIdError where
  | ChainIdUnavailable
deriving DecidableEq, Repr

/-- Modelled from the spec: `chainIdFor(network) -> ChainId` is not
present under `src/`; per the spec it returns the chain ID recorded in
the EVM mapping for identifiers in the EVM subset, and for identifiers
not present in the mapping it "must fail with an unsupported-for-this-
resolver error rather than silently returning a default". -/
def chainIdFor (network : String) : Except ChainIdError Int :=
  match EVM_NETWORK_TO_CHAIN_ID.lookup network with
  | some c => .ok c
  | none => .error .ChainIdUnavailable

/-- The component state for the frame-condition claim: the registry is
the pair of its two tables. -/
structure Registry where
  networks : List String
  evmMapping : List (String × Int)
deriving Repr

/-- The registry as established at module load: the two constants from
`networks.py`. -/
def loadRegistry : Registry :=
  { networks := SupportedNetworks, evmMapping := EVM_NETWORK_TO_CHAIN_ID }

/-- State-passing form of `isSupportedNetwork`: the Python code only
reads the tables, so the returned state is the input state. -/
def isSupportedNetworkSt (r : Registry) (value : String) : Bool × Registry :=
  (r.networks.contains value, r)

/-- State-passing form of `chainIdFor`: the Python code only reads the
tables, so the returned state is the input state. -/
def chainIdForSt (r : Registry) (network : String) :
    Except ChainIdError Int × Registry :=
  (match r.evmMapping.lookup network with
   | some c => .ok c
   | none => .error .ChainIdUnavailable, r)

/- ------------------------------------------------------------------ -/
/- Claims                                                             -/
/- ------------------------------------------------------------------ -/

/-- C1: for every string `s`, `isSupportedNetwork s` returns `true` iff
`s` is one of the seven identifiers "base", "base-sepolia",
"avalanche-fuji", "avalanche", "mvx:1", "mvx:D", "mvx:T"; every other
string (including "ethereum", "", "BASE") maps to `false`, by
case-sensitive exact string equality. -/
theorem isSupportedNetwork_iff (s : String) :
    isSupportedNetwork s = true ↔
      (s = "base" ∨ s = "base-sepolia" ∨ s = "avalanche-fuji" ∨
       s = "avalanche" ∨ s = "mvx:1" ∨ s = "mvx:D" ∨ s = "mvx:T") := by
  simp [isSupportedNetwork, SupportedNetworks, List.contains, List.elem_eq_mem,
    List.mem_cons, List.not_mem_nil, or_false]

/-- C2: `chainIdFor` returns exactly 8453 for "base", 84532 for
"base-sepolia", 43114 for "avalanche", and 43113 for
"avalanche-fuji". -/
theorem chainIdFor_evm_values :
    chainIdFor "base" = .ok 8453 ∧
    chainIdFor "base-sepolia" = .ok 84532 ∧
    chainIdFor "avalanche" = .ok 43114 ∧
    chainIdFor "avalanche-fuji" = .ok 43113 :=
  ⟨rfl, rfl, rfl, rfl⟩

/-- C3: for each of the non-EVM identifiers "mvx:1", "mvx:D", "mvx:T",
`chainIdFor` does not return a value: it fails with
`ChainIdUnavailable` rather than returning a default chain ID. -/
theorem chainIdFor_mvx_unavailable :
    chainIdFor "mvx:1" = .error .ChainIdUnavailable ∧
    chainIdFor "mvx:D" = .error .ChainIdUnavailable ∧
    chainIdFor "mvx:T" = .error .ChainIdUnavailable :=
  ⟨rfl, rfl, rfl⟩

/-- C4: the key set of the EVM mapping is exactly {"base",
"base-sepolia", "avalanche-fuji", "avalanche"} — no extra and no
missing keys — and every key is a member of the Network Identifier
enumeration. -/
theorem evm_mapping_keys_exact :
    (∀ s : String,
      s ∈ EVM_NETWORK_TO_CHAIN_ID.map Prod.fst ↔
        (s = "base" ∨ s = "base-sepolia" ∨ s = "avalanche-fuji" ∨
         s = "avalanche")) ∧
    (∀ s ∈ EVM_NETWORK_TO_CHAIN_ID.map Prod.fst, s ∈ SupportedNetworks) := by
  constructor
  · intro s
    simp [EVM_NETWORK_TO_CHAIN_ID]
    tauto
  · intro s hs
    simp [EVM_NETWORK_TO_CHAIN_ID] at hs
    simp [SupportedNetworks]
    tauto

/-- C5: the EVM mapping is injective: no chain ID is reused across two
different network identifiers (equivalently, entries with equal chain
IDs have equal keys). -/
theorem evm_mapping_injective :
    ∀ p ∈ EVM_NETWORK_TO_CHAIN_ID, ∀ q ∈ EVM_NETWORK_TO_CHAIN_ID,
      p.2 = q.2 → p.1 = q.1 := by decide

/-- Witness for C5 at the concrete entry ("base", 8453). -/
theorem evm_mapping_injective_witness :
    ("base", (8453 : Int)) ∈ EVM_NETWORK_TO_CHAIN_ID ∧
    ("base", (8453 : Int)).1 = ("base", (8453 : Int)).1 :=
  ⟨by decide,
   evm_mapping_injective ("base", 8453) (by decide) ("base", 8453) (by decide) rfl⟩

/-- C6: `chainIdFor` is deterministic and drift-free: for a network
identifier in the EVM subset, any two calls returning chain IDs return
equal values. -/
theorem chainIdFor_deterministic (n : String) (c₁ c₂ : Int)
    (h₁ : chainIdFor n = .ok c₁) (h₂ : chainIdFor n = .ok c₂) : c₁ = c₂ := by
  rw [h₁] at h₂
  exact Except.ok.inj h₂

/-- Witness for C6 at the concrete input "base". -/
theorem chainIdFor_deterministic_witness :
    chainIdFor "base" = .ok 8453 ∧ (8453 : Int) = 8453 :=
  ⟨rfl, chainIdFor_deterministic "base" 8453 8453 rfl rfl⟩

/-- C7: every chain ID stored in the EVM mapping is a non-negative
integer. -/
theorem evm_chain_ids_nonneg :
    ∀ p ∈ EVM_NETWORK_TO_CHAIN_ID, 0 ≤ p.2 := by decide

/-- Witness for C7 at the concrete entry ("base-sepolia", 84532). -/
theorem evm_chain_ids_nonneg_witness :
    ("base-sepolia", (84532 : Int)) ∈ EVM_NETWORK_TO_CHAIN_ID ∧
    0 ≤ ("base-sepolia", (84532 : Int)).2 :=
  ⟨by decide, evm_chain_ids_nonneg ("base-sepolia", 84532) (by decide)⟩

/-- C8: the registry operations are pure reads: in the state-passing
embedding, `isSupportedNetworkSt` and `chainIdForSt` return the state
they were given unchanged, so no operation of the component changes the
enumeration or the mapping after load; moreover their results agree
with the stateless functions on the loaded registry. -/
theorem registry_operations_frame :
    (∀ (r : Registry) (s : String), (isSupportedNetworkSt r s).2 = r) ∧
    (∀ (r : Registry) (s : String), (chainIdForSt r s).2 = r) ∧
    (∀ s : String, (isSupportedNetworkSt loadRegistry s).1 = isSupportedNetwork s) ∧
    (∀ s : String, (chainIdForSt loadRegistry s).1 = chainIdFor s) :=
  ⟨fun _ _ => rfl, fun _ _ => rfl, fun _ => rfl, fun _ => rfl⟩

/-- Auxiliary: lookup in the EVM mapping misses every string outside
the four keys. -/
theorem evm_lookup_none_of_not_key (s : String)
    (h1 : s ≠ "base") (h2 : s ≠ "base-sepolia")
    (h3 : s ≠ "avalanche-fuji") (h4 : s ≠ "avalanche") :
    EVM_NETWORK_TO_CHAIN_ID.lookup s = none := by
  simp [EVM_NETWORK_TO_CHAIN_ID, List.lookup,
    beq_eq_false_iff_ne.mpr h1, beq_eq_false_iff_ne.mpr h2,
    beq_eq_false_iff_ne.mpr h3, beq_eq_false_iff_ne.mpr h4]

/-- C9: for every string `s`, lookup in the EVM mapping succeeds iff
`s` is one of the four keys "base", "base-sepolia", "avalanche-fuji",
"avalanche"; any other string — an mvx identifier or an entirely
unrecognized string — fails identically, with `chainIdFor` producing
`ChainIdUnavailable` and no default value. -/
theorem evm_lookup_succeeds_iff (s : String) :
    ((EVM_NETWORK_TO_CHAIN_ID.lookup s).isSome = true ↔
      (s = "base" ∨ s = "base-sepolia" ∨ s = "avalanche-fuji" ∨
       s = "avalanche")) ∧
    (¬(s = "base" ∨ s = "base-sepolia" ∨ s = "avalanche-fuji" ∨
       s = "avalanche") →
      chainIdFor s = .error .ChainIdUnavailable) := by
  constructor
  · constructor
    · intro h
      by_contra hc
      push_neg at hc
      obtain ⟨h1, h2, h3, h4⟩ := hc
      rw [evm_lookup_none_of_not_key s h1 h2 h3 h4] at h
      simp at h
    · rintro (h | h | h | h) <;> subst h <;> decide
  · intro h
    push_neg at h
    obtain ⟨h1, h2, h3, h4⟩ := h
    unfold chainIdFor
    rw [evm_lookup_none_of_not_key s h1 h2 h3 h4]

/-- Witness for C9 at the concrete input "ethereum". -/
theorem evm_lookup_succeeds_iff_witness :
    ((EVM_NETWORK_TO_CHAIN_ID.lookup "ethereum").isSome = true ↔
      ("ethereum" = "base" ∨ "ethereum" = "base-sepolia" ∨
       "ethereum" = "avalanche-fuji" ∨ "ethereum" = "avalanche")) ∧
    chainIdFor "ethereum" = .error .ChainIdUnavailable :=
  ⟨(evm_lookup_succeeds_iff "ethereum").1,
   (evm_lookup_succeeds_iff "ethereum").2 (by decide)⟩

/-- C10: every chain ID stored in the EVM mapping is strictly
positive. -/
theorem evm_chain_ids_pos :
    ∀ p ∈ EVM_NETWORK_TO_CHAIN_ID, 0 < p.2 := by decide

/-- Witness for C10 at the concrete entry ("avalanche-fuji", 43113). -/
theorem evm_chain_ids_pos_witness :
    ("avalanche-fuji", (43113 : Int)) ∈ EVM_NETWORK_TO_CHAIN_ID ∧
    0 < ("avalanche-fuji", (43113 : Int)).2 :=
  ⟨by decide, evm_chain_ids_pos ("avalanche-fuji", 43113) (by decide)⟩

end X402
